import Mathlib

/-!
Verification development for `check_gemini_models.py`, a one-shot diagnostic
script that probes a fixed list of Gemini model identifiers, classifies each
probe outcome from the exception text, and prints a human-readable report.

The script is embedded shallowly:
* Python's substring operator `needle in hay` becomes the decidable
  proposition `pyIn` (list-infix on the character lists).
* `str.lower()` becomes `strLower` (ASCII case mapping, which agrees with
  Python on the ASCII needles the classifier uses).
* The external service (client construction plus `llm.invoke`) is a
  parameter `world : String → ProbeResult`: for each model name it either
  returns a reply text or raises an exception carrying a message string.
* Console output is modelled as a list of printed lines; the report step is
  `Except`-valued because the recommendation block indexes fixed positions
  0/1/2 of the success list and can raise `IndexError`.
* `exit(1)` raises `SystemExit`, which is not an `Exception` subclass, so it
  escapes the script's top-level `except Exception` handler: the
  missing-credential path really terminates with status 1, and every other
  path (including `ImportError` and any exception escaping the report)
  ends with status 0.
-/

/-- Python's `str.lower()` as used on `error_msg.lower()`: ASCII case
mapping character by character. -/
def strLower (s : String) : String := String.mk (s.data.map Char.toLower)

/-- Python's substring test `needle in hay` on strings. -/
def pyIn (needle hay : String) : Prop := needle.data <:+: hay.data

instance (needle hay : String) : Decidable (pyIn needle hay) :=
  List.decidableInfix needle.data hay.data

/-- Tagged outcome of probing one model identifier (spec section 3). -/
inductive ProbeOutcome where
  | success (reply : String)
  | notFound
  | noPermission
  | otherError (msg : String)
  deriving DecidableEq

/-- Behaviour of the external service for one identifier: either one reply
text, or an exception whose `str(e)` is the given message. -/
inductive ProbeResult where
  | reply (text : String)
  | exn (msg : String)
  deriving DecidableEq

/-- The except-handler classification chain of the probe loop
(source lines 90–97):
`if "404" in error_msg or "not found" in error_msg` (raw message),
`elif "403" in error_msg or "permission" in error_msg.lower()`,
`else` keep the raw message. -/
def classifyError (error_msg : String) : ProbeOutcome :=
  if pyIn "404" error_msg ∨ pyIn "not found" error_msg then
    ProbeOutcome.notFound
  else if pyIn "403" error_msg ∨ pyIn "permission" (strLower error_msg) then
    ProbeOutcome.noPermission
  else
    ProbeOutcome.otherError error_msg

/-- One iteration of the probe loop: a successful invocation yields
`success` with the reply, a caught exception is classified from its text. -/
def runProbe (world : String → ProbeResult) (model_name : String) : ProbeOutcome :=
  match world model_name with
  | ProbeResult.reply t => ProbeOutcome.success t
  | ProbeResult.exn m => classifyError m

/-- The initial `working_models` literal (source lines 36–45): the fixed
ordered candidate sequence of 8 identifiers. -/
def working_models_candidates : List String :=
  ["gemini-3-pro-preview",
   "gemini-2.5-pro",
   "gemini-2.5-flash",
   "gemini-2.5-flash-lite",
   "gemini-2.0-flash",
   "gemini-2.0-flash-lite",
   "models/gemini-2.5-pro",
   "models/gemini-2.5-flash"]

/-- Static informational list of billing-restricted models
(source lines 48–51). -/
def restricted_models : List String :=
  ["gemini-3-pro-preview",
   "gemini-3-pro-image-preview"]

/-- Static informational list of deprecated models (source lines 54–60). -/
def deprecated_models : List String :=
  ["gemini-pro",
   "gemini-1.5-pro",
   "gemini-1.5-flash",
   "gemini-2.5-pro-latest",
   "gemini-2.5-flash-latest"]

/-- `model_names_to_try = working_models` (source line 62): the probed
sequence is exactly the candidate sequence. -/
def model_names_to_try : List String := working_models_candidates

/-- The fixed probe prompt sent to every candidate (source line 86). -/
def probePrompt : String := "Hello, respond with just 'OK'"

/-- One client construction plus invocation, as configured by the probe
driver (source lines 79–86). -/
structure ClientCall where
  model : String
  google_api_key : String
  temperature : Nat
  prompt : String
  deriving DecidableEq

/-- The sequence of client calls the probe loop issues: one per candidate,
in list order, each with temperature 0 and the fixed prompt. -/
def clientCalls (api_key : String) : List ClientCall :=
  model_names_to_try.map (fun n => ⟨n, api_key, 0, probePrompt⟩)

/-- Whether the probe of one identifier succeeds (no exception raised). -/
def probeSucceeds (world : String → ProbeResult) (n : String) : Bool :=
  match runProbe world n with
  | ProbeOutcome.success _ => true
  | _ => false

/-- The final `working_models` accumulator: identifiers appended on probe
success, in loop order (source lines 72–88). -/
def workingModels (world : String → ProbeResult) : List String :=
  model_names_to_try.filter (probeSucceeds world)

/-- The summary block (source lines 99–102): header, success count, then
one line per successful identifier in order. -/
def summaryLines (working : List String) : List String :=
  ["=== SUMMARY ===",
   "Working models found: " ++ toString working.length] ++
  working.map (fun m => "  ✅ " ++ m)

/-- The recommendation block printed when at least one probe succeeded
(source lines 105–113), given the entries at positions 0, 1, 2. -/
def recLines (a b c : String) : List String :=
  ["",
   "Recommended models:",
   "  🚀 Primary:   " ++ a ++ " (most advanced)",
   "  ⚡ Secondary: " ++ b ++ " (fast & efficient)",
   "  💨 Fastest:   " ++ c ++ " (ultra-fast)",
   "",
   "=== CONFIGURATION READY ===",
   "Your TradingAgents is configured to use:",
   "  • Deep thinking: " ++ a,
   "  • Quick thinking: " ++ b]

/-- The restricted-models block (source lines 115–118). -/
def restrictedBlock : List String :=
  ["",
   "=== RESTRICTED MODELS ===",
   "These models require billing/paid plan:"] ++
  restricted_models.map (fun m => "  💳 " ++ m)

/-- The deprecated-models block (source lines 120–123). -/
def deprecatedBlock : List String :=
  ["",
   "=== DEPRECATED MODELS ===",
   "These models are no longer available:"] ++
  deprecated_models.map (fun m => "  ❌ " ++ m)

/-- The zero-success failure notice (source line 125). -/
def failureNotice : List String :=
  ["",
   "❌ No working models found. Check your API key and permissions."]

/-- The report step after the probe loop (source lines 99–125).
`if working_models:` guards the whole recommendation/restricted/deprecated
section; inside it, positions 0, 1 and 2 of the success list are read
unconditionally, raising `IndexError` when fewer than 3 succeeded. -/
def reportGen (working : List String) : Except String (List String) :=
  if working.isEmpty then
    Except.ok (summaryLines working ++ failureNotice)
  else
    match working.get? 0, working.get? 1, working.get? 2 with
    | some a, some b, some c =>
        Except.ok (summaryLines working ++ recLines a b c ++
                   restrictedBlock ++ deprecatedBlock)
    | _, _, _ => Except.error "IndexError: list index out of range"

/-- Observable result of one run: the process exit status and the client
calls issued. -/
structure RunResult where
  exitCode : Nat
  probes : List ClientCall
  deriving DecidableEq

/-- Whole-program control flow. `importFailure` models whether importing
`langchain_google_genai` raises (caught by `except ImportError`, exit 0);
`api_key` is `os.getenv("GOOGLE_API_KEY")` where `if not api_key` treats
both absence and the empty string as missing, and `exit(1)` raises
`SystemExit`, which `except Exception` does not catch; otherwise the loop
probes every candidate and the run ends with status 0 — any exception
escaping the report lands in `except Exception` (source lines 127–131),
which only prints. -/
def runProgram (importFailure : Option String) (api_key : Option String)
    (world : String → ProbeResult) : RunResult :=
  match importFailure with
  | some _ => ⟨0, []⟩
  | none =>
    match api_key with
    | none => ⟨1, []⟩
    | some k => if k = "" then ⟨1, []⟩ else ⟨0, clientCalls k⟩

/-- C1 (counterexample): the NotFound bucket's matching is not
case-insensitive: the message "Not Found" contains neither "404" nor the
exact substring "not found", and the first branch never lowercases the
message, so it is classified OtherError rather than NotFound. -/
theorem classify_notFound_case_sensitive_cex :
    classifyError "Not Found" = ProbeOutcome.otherError "Not Found" ∧
    classifyError "Not Found" ≠ ProbeOutcome.notFound := by
  decide

/-- C1 (amended): the classifier matches by substring, but the NotFound
branch matches "404" and "not found" case-sensitively against the raw
message; only the NoPermission branch's "permission" needle is matched
case-insensitively (against the lowercased message), with "403" matched on
the raw message. -/
theorem classify_amended_matching (msg : String) :
    ((pyIn "404" msg ∨ pyIn "not found" msg) →
      classifyError msg = ProbeOutcome.notFound) ∧
    (¬(pyIn "404" msg ∨ pyIn "not found" msg) →
      (pyIn "403" msg ∨ pyIn "permission" (strLower msg)) →
      classifyError msg = ProbeOutcome.noPermission) := by
  constructor
  · intro h
    unfold classifyError
    rw [if_pos h]
  · intro h1 h2
    unfold classifyError
    rw [if_neg h1, if_pos h2]

/-- Witness for the amended C1: "PERMISSION Denied" matches through the
lowercasing, while "Error 404" hits the first branch. -/
theorem classify_amended_matching_witness :
    classifyError "PERMISSION Denied" = ProbeOutcome.noPermission ∧
    classifyError "Error 404" = ProbeOutcome.notFound :=
  ⟨(classify_amended_matching "PERMISSION Denied").2 (by decide) (Or.inr (by decide)),
   (classify_amended_matching "Error 404").1 (Or.inl (by decide))⟩

/-- C6: the classifier is total (exactly one tag, never Success for a
failure message), a message containing "403" is never OtherError, and it
is NoPermission whenever no NotFound substring is present. -/
theorem classifier_total_and_precedence (msg : String) :
    (classifyError msg = ProbeOutcome.notFound ∨
     classifyError msg = ProbeOutcome.noPermission ∨
     classifyError msg = ProbeOutcome.otherError msg) ∧
    (∀ r, classifyError msg ≠ ProbeOutcome.success r) ∧
    (pyIn "403" msg → ∀ m, classifyError msg ≠ ProbeOutcome.otherError m) ∧
    (pyIn "403" msg → ¬ pyIn "404" msg → ¬ pyIn "not found" msg →
      classifyError msg = ProbeOutcome.noPermission) := by
  unfold classifyError
  split_ifs with h1 h2
  · refine ⟨Or.inl rfl, fun r => by simp, fun _ m => by simp, ?_⟩
    intro _ h404 hnf
    rcases h1 with h | h
    · exact absurd h h404
    · exact absurd h hnf
  · exact ⟨Or.inr (Or.inl rfl), fun r => by simp, fun _ m => by simp,
      fun _ _ _ => rfl⟩
  · refine ⟨Or.inr (Or.inr rfl), fun r => by simp, ?_, ?_⟩
    · intro h403 m
      exact absurd (Or.inl h403) h2
    · intro h403 _ _
      exact absurd (Or.inl h403) h2

/-- Witness for C6 at a concrete quota-style message containing "403". -/
theorem classifier_total_and_precedence_witness :
    classifyError "403 quota exceeded" = ProbeOutcome.noPermission ∧
    classifyError "403 quota exceeded" ≠
      ProbeOutcome.otherError "403 quota exceeded" :=
  ⟨(classifier_total_and_precedence "403 quota exceeded").2.2.2
      (by decide) (by decide) (by decide),
   (classifier_total_and_precedence "403 quota exceeded").2.2.1
      (by decide) "403 quota exceeded"⟩

/-- C10: NotFound takes precedence over NoPermission: any message matching
the first branch ("404" or "not found" as raw substrings) is classified
NotFound no matter what else it contains. -/
theorem notFound_precedence_over_noPermission (msg : String)
    (h : pyIn "404" msg ∨ pyIn "not found" msg) :
    classifyError msg = ProbeOutcome.notFound := by
  unfold classifyError
  rw [if_pos h]

/-- Witness for C10: a message containing "404", "403" and "permission"
at once still lands in NotFound. -/
theorem notFound_precedence_over_noPermission_witness :
    pyIn "403" "404 after 403 permission denied" ∧
    pyIn "permission" "404 after 403 permission denied" ∧
    classifyError "404 after 403 permission denied" = ProbeOutcome.notFound :=
  ⟨by decide, by decide,
   notFound_precedence_over_noPermission _ (Or.inl (by decide))⟩

/-- C2: with at least one but fewer than three successful identifiers, the
recommendation step's fixed-position reads at 0, 1 and 2 fail with an
index error. -/
theorem recommendation_index_error (working : List String)
    (h1 : 1 ≤ working.length) (h2 : working.length < 3) :
    reportGen working = Except.error "IndexError: list index out of range" := by
  match working with
  | [] => simp at h1
  | [a] => rfl
  | [a, b] => rfl
  | a :: b :: c :: t =>
    simp only [List.length_cons] at h2
    omega

/-- Witness for C2 at a single-element success list. -/
theorem recommendation_index_error_witness :
    1 ≤ ["gemini-2.5-pro"].length ∧ ["gemini-2.5-pro"].length < 3 ∧
    reportGen ["gemini-2.5-pro"] =
      Except.error "IndexError: list index out of range" :=
  ⟨by decide, by decide,
   recommendation_index_error ["gemini-2.5-pro"] (by decide) (by decide)⟩

/-- C3: with the credential absent or empty (and the client library
importing normally), the program exits with status 1 and issues zero
client calls. -/
theorem missing_credential_exits_without_probing (api_key : Option String)
    (world : String → ProbeResult) (h : api_key = none ∨ api_key = some "") :
    (runProgram none api_key world).exitCode = 1 ∧
    (runProgram none api_key world).probes = [] := by
  rcases h with h | h <;> subst h <;> exact ⟨rfl, rfl⟩

/-- Witness for C3 with the credential absent. -/
theorem missing_credential_exits_without_probing_witness :
    (runProgram none none (fun _ => ProbeResult.exn "boom")).exitCode = 1 ∧
    (runProgram none none (fun _ => ProbeResult.exn "boom")).probes = [] :=
  missing_credential_exits_without_probing none _ (Or.inl rfl)

/-- C5: the exit status is nonzero exactly in the missing/empty-credential
case — import failures and any other top-level failure still end with
status 0 — and whenever probing starts, every candidate is probed no
matter how the probes fail: each failure is converted to a classified
outcome and the loop continues. -/
theorem exit_nonzero_only_missing_credential (importFailure : Option String)
    (api_key : Option String) (world : String → ProbeResult) :
    ((runProgram importFailure api_key world).exitCode ≠ 0 ↔
      importFailure = none ∧ (api_key = none ∨ api_key = some "")) ∧
    (importFailure = none → ∀ k, api_key = some k → k ≠ "" →
      (runProgram importFailure api_key world).probes = clientCalls k ∧
      (runProgram importFailure api_key world).exitCode = 0) := by
  constructor
  · cases importFailure with
    | some e => simp [runProgram]
    | none =>
      cases api_key with
      | none => simp [runProgram]
      | some k =>
        by_cases hk : k = ""
        · subst hk
          simp [runProgram]
        · simp [runProgram, hk]
  · rintro rfl k rfl hk
    simp [runProgram, hk]

/-- Witness for C5: a run where every probe raises still probes all
candidates and exits with status 0. -/
theorem exit_nonzero_only_missing_credential_witness :
    (runProgram none (some "test-key")
        (fun _ => ProbeResult.exn "503 unavailable")).probes =
      clientCalls "test-key" ∧
    (runProgram none (some "test-key")
        (fun _ => ProbeResult.exn "503 unavailable")).exitCode = 0 :=
  (exit_nonzero_only_missing_credential none (some "test-key") _).2
    rfl "test-key" rfl (by decide)

/-- C4 (counterexample): with zero successes the static restricted and
deprecated lists are NOT printed: the whole
recommendation/restricted/deprecated section sits inside
`if working_models:`, so the zero-success report is just the summary plus
the failure notice. -/
theorem zero_success_omits_static_lists_cex :
    reportGen [] = Except.ok (summaryLines [] ++ failureNotice) ∧
    "=== RESTRICTED MODELS ===" ∉ summaryLines [] ++ failureNotice ∧
    "=== DEPRECATED MODELS ===" ∉ summaryLines [] ++ failureNotice := by
  refine ⟨rfl, ?_, ?_⟩ <;> decide

/-- C4 (amended): the reporter prints the two static lists verbatim only in
the success branch: when at least one probe succeeds and the report
completes, it ends with the restricted and deprecated blocks; when zero
probes succeed, the report is the summary plus a single failure notice and
contains neither static section. -/
theorem static_lists_printed_only_on_success (working l : List String)
    (h : reportGen working = Except.ok l) :
    (working = [] →
      l = summaryLines working ++ failureNotice ∧
      "=== RESTRICTED MODELS ===" ∉ l ∧ "=== DEPRECATED MODELS ===" ∉ l) ∧
    (working ≠ [] →
      "=== RESTRICTED MODELS ===" ∈ l ∧ "=== DEPRECATED MODELS ===" ∈ l) := by
  constructor
  · rintro rfl
    have hv : reportGen ([] : List String) =
        Except.ok (summaryLines [] ++ failureNotice) := rfl
    rw [hv] at h
    injection h with h
    subst h
    exact ⟨rfl, by decide, by decide⟩
  · intro hne
    rcases working with _ | ⟨a, t1⟩
    · exact absurd rfl hne
    rcases t1 with _ | ⟨b, t2⟩
    · have hv : reportGen [a] =
          Except.error "IndexError: list index out of range" := rfl
      rw [hv] at h
      exact Except.noConfusion h
    rcases t2 with _ | ⟨c, t3⟩
    · have hv : reportGen [a, b] =
          Except.error "IndexError: list index out of range" := rfl
      rw [hv] at h
      exact Except.noConfusion h
    have hv : reportGen (a :: b :: c :: t3) =
        Except.ok (summaryLines (a :: b :: c :: t3) ++ recLines a b c ++
          restrictedBlock ++ deprecatedBlock) := rfl
    rw [hv] at h
    injection h with h
    subst h
    constructor
    · exact List.mem_append_left _ (List.mem_append_right _ (by decide))
    · exact List.mem_append_right _ (by decide)

/-- Witness for the amended C4 at a three-element success list. -/
theorem static_lists_printed_only_on_success_witness :
    "=== RESTRICTED MODELS ===" ∈
      summaryLines ["m1", "m2", "m3"] ++ recLines "m1" "m2" "m3" ++
        restrictedBlock ++ deprecatedBlock ∧
    "=== DEPRECATED MODELS ===" ∈
      summaryLines ["m1", "m2", "m3"] ++ recLines "m1" "m2" "m3" ++
        restrictedBlock ++ deprecatedBlock :=
  (static_lists_printed_only_on_success ["m1", "m2", "m3"] _ rfl).2
    (by decide)

/-- C7: the probe loop issues client calls for exactly the fixed candidate
sequence; membership in the restricted or deprecated display lists causes
no probe: the restricted-only identifier and every deprecated identifier
are never probed. -/
theorem probed_exactly_candidates (api_key : String) :
    (clientCalls api_key).map ClientCall.model = model_names_to_try ∧
    "gemini-3-pro-image-preview" ∈ restricted_models ∧
    "gemini-3-pro-image-preview" ∉ (clientCalls api_key).map ClientCall.model ∧
    (∀ m ∈ deprecated_models, m ∉ (clientCalls api_key).map ClientCall.model) := by
  refine ⟨rfl, by decide, ?_, ?_⟩
  · exact (by decide : "gemini-3-pro-image-preview" ∉ model_names_to_try)
  · exact (by decide : ∀ m ∈ deprecated_models, m ∉ model_names_to_try)

/-- Witness for C7: the deprecated identifier "gemini-pro" is not among
the probed models. -/
theorem probed_exactly_candidates_witness :
    (clientCalls "k0").map ClientCall.model = model_names_to_try ∧
    "gemini-pro" ∉ (clientCalls "k0").map ClientCall.model :=
  ⟨(probed_exactly_candidates "k0").1,
   (probed_exactly_candidates "k0").2.2.2 "gemini-pro" (by decide)⟩

/-- C8: when every probe succeeds, the success list is exactly the
candidate sequence in original order, each identifier appears exactly
once, and the summary block lists exactly those identifiers after its two
header lines. -/
theorem all_success_summary (world : String → ProbeResult)
    (h : ∀ n ∈ model_names_to_try, ∃ t, world n = ProbeResult.reply t) :
    workingModels world = model_names_to_try ∧
    (workingModels world).Nodup ∧
    (∀ n ∈ model_names_to_try, (workingModels world).count n = 1) ∧
    (summaryLines (workingModels world)).drop 2 =
      model_names_to_try.map (fun m => "  ✅ " ++ m) := by
  have hw : workingModels world = model_names_to_try := by
    unfold workingModels
    refine List.filter_eq_self.mpr ?_
    intro n hn
    obtain ⟨t, ht⟩ := h n hn
    simp [probeSucceeds, runProbe, ht]
  have hnd : model_names_to_try.Nodup := by decide
  refine ⟨hw, by rw [hw]; exact hnd, ?_, ?_⟩
  · intro n hn
    rw [hw]
    exact List.count_eq_one_of_mem hnd hn
  · rw [hw]
    rfl

/-- Witness for C8 with a service that replies "OK" to every probe. -/
theorem all_success_summary_witness :
    workingModels (fun _ => ProbeResult.reply "OK") = model_names_to_try :=
  (all_success_summary _ (fun n _ => ⟨"OK", rfl⟩)).1

/-- C9: the candidate sequence has exactly 8 identifiers and the probe
driver issues exactly one client call per candidate in order, each
configured with the given key, temperature 0 (the most deterministic
setting), and the single fixed prompt. -/
theorem one_call_per_candidate (api_key : String) :
    model_names_to_try.length = 8 ∧
    (clientCalls api_key).length = 8 ∧
    (∀ c ∈ clientCalls api_key,
      c.temperature = 0 ∧ c.prompt = probePrompt ∧
      c.google_api_key = api_key) ∧
    (∀ n ∈ model_names_to_try,
      ((clientCalls api_key).map ClientCall.model).count n = 1) := by
  refine ⟨rfl, rfl, ?_, ?_⟩
  · intro c hc
    unfold clientCalls at hc
    obtain ⟨n, hn, rfl⟩ := List.mem_map.mp hc
    exact ⟨rfl, rfl, rfl⟩
  · exact (by decide : ∀ n ∈ model_names_to_try, model_names_to_try.count n = 1)

/-- Witness for C9 at a concrete key and a concrete call of the loop. -/
theorem one_call_per_candidate_witness :
    ((⟨"gemini-2.5-flash", "k1", 0, probePrompt⟩ : ClientCall).temperature = 0 ∧
     (⟨"gemini-2.5-flash", "k1", 0, probePrompt⟩ : ClientCall).prompt = probePrompt ∧
     (⟨"gemini-2.5-flash", "k1", 0, probePrompt⟩ : ClientCall).google_api_key = "k1") ∧
    ((clientCalls "k1").map ClientCall.model).count "gemini-2.5-pro" = 1 :=
  ⟨(one_call_per_candidate "k1").2.2.1 _ (by decide),
   (one_call_per_candidate "k1").2.2.2 "gemini-2.5-pro" (by decide)⟩
